import Mathlib

/-!
Verification of the configuration-backend layer of the dicomdiablo repository.

The development shallowly embeds the code of `app/common/config_backend.py`
(classes `FileBackend` and `DatabaseBackend`), the session layer of
`app/common/config.py` (`read_config`, `save_config`,
`_invalidate_config_timestamp`), and the one-time bootstrap tools
(`tools/seed_config.py`, `tools/migrate_config_to_db.py`,
`scripts/bootstrap_shared_config.py`).

Modelling conventions:
  - JSON documents are values of an explicit inductive `JVal`; the
    serialisation round trip (`json.dump` / `json.load`) is value-preserving
    for JSON-serialisable dicts and is therefore the identity in the model.
  - File-system facts the code merely observes (whether the config file or
    the lock sentinel exists, the modification time delivered by `os.stat`,
    whether a database round trip raises `psycopg2.Error`, whether a
    best-effort cache write succeeds) are explicit inputs of the embedded
    operations.
  - Modification times are modelled as natural numbers: the code only ever
    compares them, so only their order matters.
  - Errors raised by the Python code become explicit error values; each
    operation returns its updated state together with an `Except` result, so
    that state changes made before an exception propagates stay observable.
-/

/-- JSON values: the payload type of configuration documents. -/
inductive JVal where
  | null : JVal
  | bool (b : Bool) : JVal
  | num (n : Int) : JVal
  | str (s : String) : JVal
  | arr (elems : List JVal) : JVal
  | obj (fields : List (String × JVal)) : JVal


/-- A configuration document: a JSON object given as an association list of
top-level keys, the way the Python code passes `Dict` values around. -/
abbrev Doc := List (String × JVal)

/-- First-match key lookup, the observable content of a Python dict. -/
def dlookup (k : String) : Doc → Option JVal
  | [] => none
  | (k2, v) :: rest => if k2 = k then some v else dlookup k rest

/-- Python dict merge `{**a, **b}` (values from `b` win), up to `docEquiv`:
with first-match lookup, putting `b` in front gives `b` priority. -/
def pyMerge (a b : Doc) : Doc := b ++ a

/-- Value equality of documents, Python's `==` on dicts: the same lookup
result on every key. -/
def docEquiv (d1 d2 : Doc) : Prop := ∀ k, dlookup k d1 = dlookup k d2

/-- The state of the file system around one configuration file, as the code
observes it: whether the config file exists, its parsed content, its
modification time, and whether the lock sentinel file exists. -/
structure FileState where
  fsPresent : Bool
  content : Doc
  mtime : Nat
  lockPresent : Bool


/-- Errors the backends raise (Python exception classes, by effect). -/
inductive BackendErr where
  /-- ResourceWarning: configuration file locked / unable to lock. -/
  | locked : BackendErr
  /-- FileNotFoundError: configuration file / row / database not found. -/
  | notFound : BackendErr


namespace FileBackend

/-- The mutable state of a `FileBackend` instance: `self._timestamp`. -/
structure State where
  timestamp : Nat


/-- The state of a freshly constructed `FileBackend` (`__init__` sets
`self._timestamp = 0`). -/
def init : State := { timestamp := 0 }

/-- `FileBackend.is_locked`: the lock sentinel file exists. -/
def is_locked (fs : FileState) : Bool := fs.lockPresent

/-- `FileBackend.load`: raise ResourceWarning when locked, FileNotFoundError
when the file is absent; return `none` (unchanged) when the file's mtime is
not newer than the remembered `_timestamp`; otherwise read the file, advance
`_timestamp` to the file's mtime and return the parsed document. -/
def load (st : State) (fs : FileState) : State × Except BackendErr (Option Doc) :=
  if is_locked fs then (st, .error .locked)
  else if ¬ fs.fsPresent then (st, .error .notFound)
  else if fs.mtime ≤ st.timestamp then (st, .ok none)
  else ({ timestamp := fs.mtime }, .ok (some fs.content))

/-- `FileBackend.save`: raise ResourceWarning when locked or when the lock
file cannot be created (`lockOk` models whether `FileLock` succeeds); else
write the document, then set `_timestamp` from `os.stat` of the written file
(`newMtime` is the mtime the file system assigns; `statOk` models the
`except AttributeError` fallback that sets `_timestamp = 0`). The lock file
is removed in the `finally` block, so it is absent afterwards. -/
def save (st : State) (fs : FileState) (config_dict : Doc)
    (newMtime : Nat) (lockOk statOk : Bool) :
    State × FileState × Except BackendErr Unit :=
  if is_locked fs then (st, fs, .error .locked)
  else if ¬ lockOk then (st, fs, .error .locked)
  else
    let fs2 : FileState :=
      { fsPresent := true, content := config_dict, mtime := newMtime, lockPresent := false }
    let st2 : State := { timestamp := if statOk then newMtime else 0 }
    (st2, fs2, .ok ())

end FileBackend

/-- The singleton row of the `diablo_config` table: payload, integer version
counter and attribution (the `updated_at` timestamp is not used by any
correctness-relevant comparison and is elided). -/
structure DbRow where
  config_data : Doc
  version : Nat
  updated_by : String


/-- The state of the shared database: the singleton row (or none before
seeding) and whether some other writer currently holds the row lock. -/
structure DbState where
  row : Option DbRow
  lockHeld : Bool


/-- The local cache-mirror file: `some d` when it exists and parses to `d`,
`none` when it is absent or unreadable (`_read_cache` returns None then). -/
structure CacheFile where
  content : Option Doc


namespace DatabaseBackend

/-- The mutable state of a `DatabaseBackend` instance: `self._last_version`
and whether `self._conn` is a live connection. -/
structure State where
  last_version : Nat
  connOpen : Bool


/-- The state of a freshly constructed `DatabaseBackend` (`__init__` sets
`self._last_version = 0` and `self._conn = None`). -/
def init : State := { last_version := 0, connOpen := false }

/-- `DatabaseBackend.is_locked`: returns False unconditionally (row-level
locking leaves no persistent lock state), whatever the instance and the
database look like. -/
def is_locked (st : State) (db : DbState) : Bool := false

/-- Result of `DatabaseBackend.load`: updated instance state, cache-mirror
file after the call, and the Python return value or exception. -/
structure LoadResult where
  st : State
  cache : CacheFile
  result : Except BackendErr (Option Doc)


/-- `DatabaseBackend.load`. `dbOk` is whether the database round trip works
(`psycopg2.Error` is raised when it does not); `cacheWriteOk` is whether the
best-effort `_write_cache` succeeds. On success: FileNotFoundError when the
row is absent (this is not a `psycopg2.Error`, so it propagates and the
connection stays open); `none` when the stored version is not above
`_last_version`; otherwise the document, with `_last_version` advanced and
the cache mirror rewritten. On `psycopg2.Error`: the connection is closed
and discarded; with `_last_version = 0` the cache mirror is returned when
readable, else FileNotFoundError; with `_last_version > 0` the call returns
`none`. -/
def load (st : State) (db : DbState) (cache : CacheFile)
    (dbOk cacheWriteOk : Bool) : LoadResult :=
  if dbOk then
    match db.row with
    | none => { st := { st with connOpen := true }, cache := cache, result := .error .notFound }
    | some row =>
      if row.version ≤ st.last_version then
        { st := { st with connOpen := true }, cache := cache, result := .ok none }
      else
        { st := { last_version := row.version, connOpen := true },
          cache := if cacheWriteOk then { content := some row.config_data } else cache,
          result := .ok (some row.config_data) }
  else
    let st2 : State := { st with connOpen := false }
    if st.last_version = 0 then
      match cache.content with
      | some cached => { st := st2, cache := cache, result := .ok (some cached) }
      | none => { st := st2, cache := cache, result := .error .notFound }
    else { st := st2, cache := cache, result := .ok none }

/-- Result of `DatabaseBackend.save`: updated instance state, database and
cache-mirror states, the Python result, and the list of broadcast signals
(channel names) the call emitted. -/
structure SaveResult where
  st : State
  db : DbState
  cache : CacheFile
  result : Except BackendErr Unit
  signals : List String


/-- `DatabaseBackend.save`: defaults `updated_by` to the hostname, takes the
row lock (blocking until free, so `lockHeld` never fails the call), raises
FileNotFoundError when the singleton row is absent (rollback, database
unchanged), otherwise updates payload, increments `version` by one, records
the attribution, sets `_last_version` to the new version, commits, and
rewrites the cache mirror best-effort. The method executes no NOTIFY or
other broadcast statement, so `signals` is always empty. -/
def save (st : State) (db : DbState) (cache : CacheFile)
    (config_dict : Doc) (updated_by hostname : String) (cacheWriteOk : Bool) :
    SaveResult :=
  let by2 := if updated_by = "" then hostname else updated_by
  match db.row with
  | none =>
      { st := { st with connOpen := true }, db := db, cache := cache,
        result := .error .notFound, signals := [] }
  | some row =>
      let newVersion := row.version + 1
      { st := { last_version := newVersion, connOpen := true },
        db := { row := some { config_data := config_dict, version := newVersion,
                              updated_by := by2 },
                lockHeld := false },
        cache := if cacheWriteOk then { content := some config_dict } else cache,
        result := .ok (),
        signals := [] }

end DatabaseBackend

/-- The module-level `mercure_defaults` dict of `app/common/config.py`. -/
def mercure_defaults : Doc :=
  [ ("appliance_name", .str "master"),
    ("appliance_color", .str "#FFF"),
    ("port", .num 11112),
    ("accept_compressed_images", .bool false),
    ("incoming_folder", .str "/opt/mercure/data/incoming"),
    ("studies_folder", .str "/opt/mercure/data/studies"),
    ("outgoing_folder", .str "/opt/mercure/data/outgoing"),
    ("success_folder", .str "/opt/mercure/data/success"),
    ("error_folder", .str "/opt/mercure/data/error"),
    ("discard_folder", .str "/opt/mercure/data/discard"),
    ("processing_folder", .str "/opt/mercure/data/processing"),
    ("jobs_folder", .str "/opt/mercure/data/jobs"),
    ("persistence_folder", .str "/opt/mercure/persistence"),
    ("router_scan_interval", .num 1),
    ("dispatcher_scan_interval", .num 1),
    ("cleaner_scan_interval", .num 60),
    ("retention", .num 259200),
    ("emergency_clean_percentage", .num 90),
    ("retry_delay", .num 900),
    ("retry_max", .num 5),
    ("series_complete_trigger", .num 60),
    ("study_complete_trigger", .num 900),
    ("study_forcecomplete_trigger", .num 5400),
    ("dicom_receiver", .obj [("additional_tags", .arr [])]),
    ("graphite_ip", .str ""),
    ("graphite_port", .num 2003),
    ("influxdb_host", .str ""),
    ("influxdb_org", .str ""),
    ("influxdb_token", .str ""),
    ("influxdb_bucket", .str ""),
    ("bookkeeper", .str "0.0.0.0:8080"),
    ("offpeak_start", .str "22:00"),
    ("offpeak_end", .str "06:00"),
    ("process_runner", .str "docker"),
    ("targets", .obj []),
    ("rules", .obj []),
    ("modules", .obj []),
    ("features", .obj [("dummy_target", .bool false)]),
    ("processing_logs", .obj [("discard_logs", .bool false)]),
    ("email_notification_from", .str "mercure@mercure.mercure"),
    ("support_root_modules", .bool false),
    ("phi_notifications", .bool false),
    ("server_time", .str "UTC"),
    ("local_time", .str "UTC") ]

/-- The session-level mutable state of `app/common/config.py`: the module
globals `mercure` (the held configuration, as its dict of values) and
`configuration_timestamp` (the remembered version, 0 until a load). -/
structure SessionState where
  mercure : Doc
  configuration_timestamp : Nat

/-- Errors `read_config` / `save_config` raise. -/
inductive SessionErr where
  /-- ResourceWarning: configuration file locked / unable to lock. -/
  | locked : SessionErr
  /-- FileNotFoundError from the backend: no document at the store. -/
  | notFound : SessionErr
  /-- FileNotFoundError: configured folders missing (`check_folders`). -/
  | foldersMissing : SessionErr

/-- Modelled from the spec: the backend object `config.py` calls — the
`get_config_backend` factory and its `FileConfigBackend.read()` — is not
under `src/` (only this caller is). Per §4.1/§4.2 of the spec, `read()`
fails with NotFound when the file is absent and otherwise always returns
the full current document together with the file's modification time as
its version. -/
def fileConfigRead (fs : FileState) : Except SessionErr (Doc × Nat) :=
  if fs.fsPresent then .ok (fs.content, fs.mtime) else .error .notFound

/-- Modelled from the spec: `FileConfigBackend.write` persists the document
in place of the old file content; the new modification time is whatever the
file system assigns. -/
def fileConfigWrite (fs : FileState) (doc : Doc) (newMtime : Nat) : FileState :=
  { fsPresent := true, content := doc, mtime := newMtime, lockPresent := fs.lockPresent }

/-- `read_config` (file-backend path): raise ResourceWarning when the lock
sentinel exists; read `(document, version)` from the backend; return the
held document unchanged when `version <= configuration_timestamp` and
`configuration_timestamp > 0`; otherwise merge the loaded document over
`mercure_defaults` into the global `mercure` (done before the folder
check), raise FileNotFoundError when `check_folders` fails (`checkFoldersOk`
models the folder probe), else record the new version. Monitoring events,
the tags-list refresh (whose exceptions are swallowed) and the NOTIFY
listener start have no configuration-visible effect here and are elided. -/
def read_config (st : SessionState) (fs : FileState) (checkFoldersOk : Bool) :
    SessionState × Except SessionErr Doc :=
  if fs.lockPresent then (st, .error .locked)
  else
    match fileConfigRead fs with
    | .error e => (st, .error e)
    | .ok (loaded, version) =>
      if version ≤ st.configuration_timestamp ∧ 0 < st.configuration_timestamp then
        (st, .ok st.mercure)
      else
        let merged := pyMerge mercure_defaults loaded
        if checkFoldersOk then
          ({ mercure := merged, configuration_timestamp := version }, .ok merged)
        else
          ({ st with mercure := merged }, .error .foldersMissing)

/-- `save_config` (file-backend path): raise ResourceWarning when the lock
sentinel exists or the lock file cannot be created (`lockAcquireOk` models
`helper.FileLock`); write the held document through the backend; set
`configuration_timestamp` from `stat` of the written file (`newMtime` is
the assigned modification time; `statOk` models the `except OSError`
fallback to 0); free the lock before returning. -/
def save_config (st : SessionState) (fs : FileState) (newMtime : Nat)
    (lockAcquireOk statOk : Bool) :
    SessionState × FileState × Except SessionErr Unit :=
  if fs.lockPresent then (st, fs, .error .locked)
  else if ¬ lockAcquireOk then (st, fs, .error .locked)
  else
    let fs2 := fileConfigWrite fs st.mercure newMtime
    let ts2 := if statOk then newMtime else 0
    ({ st with configuration_timestamp := ts2 }, fs2, .ok ())

/-- `_invalidate_config_timestamp`: the change-notification callback resets
the session's remembered version to 0. -/
def invalidate_config_timestamp (st : SessionState) : SessionState :=
  { st with configuration_timestamp := 0 }

/-- `tools/seed_config.py` `main()`, from the point where the connection is
open and the idempotent CREATE TABLE has run (which adds no row): exit 0
without touching the table when the singleton row exists; otherwise insert
the default document with version 1 and exit 0. -/
def seed_config_main (db : DbState) (default_config : Doc) : DbState × Nat :=
  match db.row with
  | some _ => (db, 0)
  | none =>
    ({ db with row := some { config_data := default_config, version := 1,
                             updated_by := "seed_config.py" } }, 0)

/-- `tools/migrate_config_to_db.py` `main()`, from the same point: refuse
with exit 1, touching nothing, when the singleton row exists; otherwise
insert the migrated document with version 1 and exit 0. -/
def migrate_config_to_db_main (db : DbState) (config_data : Doc) : DbState × Nat :=
  match db.row with
  | some _ => (db, 1)
  | none =>
    ({ db with row := some { config_data := config_data, version := 1,
                             updated_by := "migrate_config_to_db.py" } }, 0)

/-- Modelled from the spec: `DatabaseConfigBackend.read`, which
`scripts/bootstrap_shared_config.py` calls when the row already exists, is
not under `src/`. Per §4.3 of the spec, `read()` returns the stored
document and refreshes the local cache mirror; it never inserts or updates
the row. -/
def dbConfigBackendReadRefresh (db : DbState) (cache : CacheFile) : CacheFile :=
  match db.row with
  | some row => { content := some row.config_data }
  | none => cache

/-- Modelled from the spec: `DatabaseConfigBackend.write`, which
`scripts/bootstrap_shared_config.py` uses for the initial insert, is not
under `src/`. Per §6 of the spec the version column defaults to 1, so the
bootstrap-time insert on an empty table stores the document with
version 1. -/
def dbConfigBackendWriteInsert (db : DbState) (doc : Doc) : DbState :=
  { db with row := some { config_data := doc, version := 1, updated_by := "" } }

/-- `scripts/bootstrap_shared_config.py` `main()`: when the singleton row
exists, only refresh the local cache (`backend.read()`) and exit 0; when it
is absent, insert the local configuration file's document (exit 1 when that
file is missing). -/
def bootstrap_shared_config_main (db : DbState) (cache : CacheFile)
    (config_file : Option Doc) : DbState × CacheFile × Nat :=
  match db.row with
  | some _ => (db, dbConfigBackendReadRefresh db cache, 0)
  | none =>
    match config_file with
    | none => (db, cache, 1)
    | some data => (dbConfigBackendWriteInsert db data, cache, 0)

/-- One call on a `FileBackend` instance together with the environment the
call observes: `load` sees the file system as it is at call time (arbitrary
between calls, which covers external writers and clock changes); `save` is
additionally given the modification time the file system assigns to the
rewritten file and whether locking and `stat` succeed. -/
inductive FileOp where
  | load (fs : FileState)
  | save (fs : FileState) (config_dict : Doc) (newMtime : Nat) (lockOk statOk : Bool)

/-- The modification time an operation observes. -/
def FileOp.mtimeOf : FileOp → Nat
  | .load fs => fs.mtime
  | .save _ _ newMtime _ _ => newMtime

/-- Whether the operation's `stat` succeeds (`load` never consults the
`AttributeError` fallback that matters here). -/
def FileOp.statOkOf : FileOp → Bool
  | .load _ => true
  | .save _ _ _ _ statOk => statOk

/-- The `FileBackend` instance state after one call; the call's return
value or exception does not feed back into `_timestamp`. -/
def fileStep (st : FileBackend.State) : FileOp → FileBackend.State
  | .load fs => (FileBackend.load st fs).1
  | .save fs d m lockOk statOk => (FileBackend.save st fs d m lockOk statOk).1

/-- The instance state after a sequence of calls. -/
def fileExec (st : FileBackend.State) : List FileOp → FileBackend.State
  | [] => st
  | op :: ops => fileExec (fileStep st op) ops

/-- One event at the shared database as seen from one `DatabaseBackend`
instance: a `load` or `save` call on the instance (with the environment
flags that call observes), or an external write — another process's
successful `save` (incrementing the stored version) or seeding of an
absent row (inserted with version 1 by the bootstrap tools). -/
inductive DbOp where
  | load (dbOk cacheWriteOk : Bool)
  | save (config_dict : Doc) (updated_by hostname : String) (cacheWriteOk : Bool)
  | externalSave (config_dict : Doc) (updated_by : String)
  | externalSeed (config_data : Doc)

/-- The combined state of one `DatabaseBackend` instance, the shared
database row and the instance's local cache-mirror file. -/
structure DbSys where
  st : DatabaseBackend.State
  db : DbState
  cache : CacheFile

/-- The combined state after one event. -/
def dbStep (s : DbSys) : DbOp → DbSys
  | .load dbOk cacheWriteOk =>
    let r := DatabaseBackend.load s.st s.db s.cache dbOk cacheWriteOk
    { st := r.st, db := s.db, cache := r.cache }
  | .save d ub hn cacheWriteOk =>
    let r := DatabaseBackend.save s.st s.db s.cache d ub hn cacheWriteOk
    { st := r.st, db := r.db, cache := r.cache }
  | .externalSave d ub =>
    match s.db.row with
    | some row =>
      { s with db := { row := some { config_data := d, version := row.version + 1,
                                     updated_by := ub },
                       lockHeld := false } }
    | none => s
  | .externalSeed d =>
    match s.db.row with
    | some _ => s
    | none => { s with db := { row := some { config_data := d, version := 1,
                                             updated_by := "" },
                               lockHeld := s.db.lockHeld } }

/-- The combined state after a sequence of events. -/
def dbExec (s : DbSys) : List DbOp → DbSys
  | [] => s
  | op :: ops => dbExec (dbStep s op) ops

/-- The version-tracking invariant of a `DatabaseBackend` instance against
the shared row: the remembered `_last_version` never exceeds the stored
version, and is 0 while no row exists. It holds of a fresh instance against
any database and is preserved by every event. -/
def dbInv (s : DbSys) : Prop :=
  match s.db.row with
  | some row => s.st.last_version ≤ row.version
  | none => s.st.last_version = 0

theorem dbStep_inv (s : DbSys) (op : DbOp) (h : dbInv s) : dbInv (dbStep s op) := by
  cases op with
  | load dbOk cok =>
    rcases hrow : s.db.row with _ | row <;>
      rcases hc : s.cache.content with _ | c <;>
      simp only [dbStep, DatabaseBackend.load, dbInv, hrow, hc] at h ⊢ <;>
      split_ifs <;> simp_all <;> omega
  | save d ub hn cok =>
    rcases hrow : s.db.row with _ | row <;>
      simp only [dbStep, DatabaseBackend.save, dbInv, hrow] at h ⊢ <;> omega
  | externalSave d ub =>
    rcases hrow : s.db.row with _ | row <;>
      simp only [dbStep, dbInv, hrow] at h ⊢ <;> omega
  | externalSeed d =>
    rcases hrow : s.db.row with _ | row <;>
      simp only [dbStep, dbInv, hrow] at h ⊢ <;> omega

theorem dbStep_mono (s : DbSys) (op : DbOp) (h : dbInv s) :
    s.st.last_version ≤ (dbStep s op).st.last_version := by
  cases op with
  | load dbOk cok =>
    rcases hrow : s.db.row with _ | row <;>
      rcases hc : s.cache.content with _ | c <;>
      simp only [dbStep, DatabaseBackend.load, dbInv, hrow, hc] at h ⊢ <;>
      split_ifs <;> simp_all <;> omega
  | save d ub hn cok =>
    rcases hrow : s.db.row with _ | row <;>
      simp only [dbStep, DatabaseBackend.save, dbInv, hrow] at h ⊢ <;> omega
  | externalSave d ub =>
    rcases hrow : s.db.row with _ | row <;> simp only [dbStep, hrow] <;> omega
  | externalSeed d =>
    rcases hrow : s.db.row with _ | row <;> simp only [dbStep, hrow] <;> omega

theorem dbExec_mono (ops : List DbOp) (s : DbSys) (h : dbInv s) :
    s.st.last_version ≤ (dbExec s ops).st.last_version := by
  induction ops generalizing s with
  | nil => simp [dbExec]
  | cons op rest ih =>
    exact le_trans (dbStep_mono s op h) (ih (dbStep s op) (dbStep_inv s op h))

theorem fileStep_mono (st : FileBackend.State) (op : FileOp)
    (hstat : op.statOkOf = true) (hmt : st.timestamp ≤ op.mtimeOf) :
    st.timestamp ≤ (fileStep st op).timestamp := by
  cases op with
  | load fs =>
    simp only [fileStep, FileBackend.load, FileOp.mtimeOf] at hmt ⊢
    split_ifs <;> simp_all
  | save fs d m lockOk statOk =>
    simp only [fileStep, FileBackend.save, FileOp.mtimeOf, FileOp.statOkOf] at hstat hmt ⊢
    split_ifs <;> simp_all

theorem fileStep_le_mtime (st : FileBackend.State) (op : FileOp)
    (hmt : st.timestamp ≤ op.mtimeOf) :
    (fileStep st op).timestamp ≤ op.mtimeOf := by
  cases op with
  | load fs =>
    simp only [fileStep, FileBackend.load, FileOp.mtimeOf] at hmt ⊢
    split_ifs <;> simp_all
  | save fs d m lockOk statOk =>
    simp only [fileStep, FileBackend.save, FileOp.mtimeOf] at hmt ⊢
    split_ifs <;> simp_all <;> omega

theorem fileExec_mono (ops : List FileOp) (st : FileBackend.State)
    (hSorted : ops.Pairwise (fun a b => a.mtimeOf ≤ b.mtimeOf))
    (hOps : ∀ op ∈ ops, op.statOkOf = true ∧ st.timestamp ≤ op.mtimeOf) :
    st.timestamp ≤ (fileExec st ops).timestamp := by
  induction ops generalizing st with
  | nil => simp [fileExec]
  | cons op rest ih =>
    obtain ⟨hstat, hmt⟩ := hOps op (List.mem_cons_self op rest)
    rw [List.pairwise_cons] at hSorted
    have h1 : st.timestamp ≤ (fileStep st op).timestamp := fileStep_mono st op hstat hmt
    have h2 : (fileStep st op).timestamp ≤ op.mtimeOf := fileStep_le_mtime st op hmt
    have hrest : ∀ op2 ∈ rest, op2.statOkOf = true ∧
        (fileStep st op).timestamp ≤ op2.mtimeOf := by
      intro op2 hmem
      exact ⟨(hOps op2 (List.mem_cons_of_mem op hmem)).1,
        le_trans h2 (hSorted.1 op2 hmem)⟩
    exact le_trans h1 (ih (fileStep st op) hSorted.2 hrest)

/-- C2: every successful `DatabaseBackend.save(config_dict)` increments the
stored integer version counter by exactly 1: if the row's version was `v`
immediately before the call, afterwards the row holds `config_dict` with
version `v + 1`, and the backend's `_last_version` is set to that new value
— so versions produced by successful writes are strictly increasing. -/
theorem save_increments_version_by_one
    (st : DatabaseBackend.State) (db : DbState) (cache : CacheFile)
    (config_dict : Doc) (updated_by hostname : String) (cacheWriteOk : Bool)
    (row : DbRow) (h : db.row = some row) :
    (DatabaseBackend.save st db cache config_dict updated_by hostname cacheWriteOk).result
      = .ok () ∧
    (DatabaseBackend.save st db cache config_dict updated_by hostname cacheWriteOk).db.row
      = some { config_data := config_dict, version := row.version + 1,
               updated_by := if updated_by = "" then hostname else updated_by } ∧
    (DatabaseBackend.save st db cache config_dict updated_by hostname cacheWriteOk).st.last_version
      = row.version + 1 := by
  simp [DatabaseBackend.save, h]

theorem save_increments_version_by_one_witness :
    (DatabaseBackend.save DatabaseBackend.init
      { row := some { config_data := [], version := 7, updated_by := "" }, lockHeld := false }
      { content := none } [("port", JVal.num 104)] "" "hostA" true).result = .ok () ∧
    (DatabaseBackend.save DatabaseBackend.init
      { row := some { config_data := [], version := 7, updated_by := "" }, lockHeld := false }
      { content := none } [("port", JVal.num 104)] "" "hostA" true).st.last_version = 8 := by
  have h := save_increments_version_by_one DatabaseBackend.init
    { row := some { config_data := [], version := 7, updated_by := "" }, lockHeld := false }
    { content := none } [("port", JVal.num 104)] "" "hostA" true
    { config_data := [], version := 7, updated_by := "" } rfl
  exact ⟨h.1, h.2.2⟩

/-- C3: when `DatabaseBackend.load` hits a database error, the connection is
discarded; with `_last_version = 0` it returns the cache-mirror document
when that file exists and parses, else fails with the FileNotFoundError
naming the unreachable database; with `_last_version > 0` it returns the
unchanged result `none` instead of propagating the error. -/
theorem load_database_error_fallback
    (st : DatabaseBackend.State) (db : DbState) (cache : CacheFile) (cacheWriteOk : Bool) :
    (st.last_version = 0 → ∀ d, cache.content = some d →
      (DatabaseBackend.load st db cache false cacheWriteOk).result = .ok (some d)) ∧
    (st.last_version = 0 → cache.content = none →
      (DatabaseBackend.load st db cache false cacheWriteOk).result = .error .notFound) ∧
    (0 < st.last_version →
      (DatabaseBackend.load st db cache false cacheWriteOk).result = .ok none) ∧
    (DatabaseBackend.load st db cache false cacheWriteOk).st.connOpen = false := by
  rcases hc : cache.content with _ | c <;>
    simp [DatabaseBackend.load, hc] <;> split_ifs <;> simp_all <;> omega

theorem load_database_error_fallback_witness :
    (DatabaseBackend.load DatabaseBackend.init { row := none, lockHeld := false }
      { content := some [("port", JVal.num 104)] } false true).result
      = .ok (some [("port", JVal.num 104)]) ∧
    (DatabaseBackend.load DatabaseBackend.init { row := none, lockHeld := false }
      { content := some [("port", JVal.num 104)] } false true).st.connOpen = false := by
  have h := load_database_error_fallback DatabaseBackend.init
    { row := none, lockHeld := false } { content := some [("port", JVal.num 104)] } true
  exact ⟨h.1 rfl [("port", JVal.num 104)] rfl, h.2.2.2⟩

/-- C4 counterexample: a concrete successful `DatabaseBackend.save` emits no
broadcast signal on any notification channel (the method contains no NOTIFY
or equivalent statement), refuting the claim that every successful save
emits such a signal. -/
theorem save_emits_no_signal_counterexample :
    (DatabaseBackend.save DatabaseBackend.init
      { row := some { config_data := [], version := 1, updated_by := "" }, lockHeld := false }
      { content := none } [("port", JVal.num 104)] "" "hostA" true).result = .ok () ∧
    (DatabaseBackend.save DatabaseBackend.init
      { row := some { config_data := [], version := 1, updated_by := "" }, lockHeld := false }
      { content := none } [("port", JVal.num 104)] "" "hostA" true).signals = [] :=
  ⟨rfl, rfl⟩

/-- C4 (amended): every successful `DatabaseBackend.save` updates payload,
version and attribution in the row and refreshes the cache mirror, but
emits no broadcast signal on any notification channel; propagation to other
processes relies on the version check their next `load()` performs. -/
theorem save_updates_row_without_signal
    (st : DatabaseBackend.State) (db : DbState) (cache : CacheFile)
    (config_dict : Doc) (updated_by hostname : String) (cacheWriteOk : Bool)
    (row : DbRow) (h : db.row = some row) :
    (DatabaseBackend.save st db cache config_dict updated_by hostname cacheWriteOk).result
      = .ok () ∧
    (DatabaseBackend.save st db cache config_dict updated_by hostname cacheWriteOk).db.row
      = some { config_data := config_dict, version := row.version + 1,
               updated_by := if updated_by = "" then hostname else updated_by } ∧
    (cacheWriteOk = true →
      (DatabaseBackend.save st db cache config_dict updated_by hostname cacheWriteOk).cache
        = { content := some config_dict }) ∧
    (DatabaseBackend.save st db cache config_dict updated_by hostname cacheWriteOk).signals
      = [] := by
  simp [DatabaseBackend.save, h]
  intro hc
  simp [hc]

theorem save_updates_row_without_signal_witness :
    (DatabaseBackend.save DatabaseBackend.init
      { row := some { config_data := [], version := 3, updated_by := "" }, lockHeld := false }
      { content := none } [("port", JVal.num 104)] "" "hostB" true).signals = [] := by
  have h := save_updates_row_without_signal DatabaseBackend.init
    { row := some { config_data := [], version := 3, updated_by := "" }, lockHeld := false }
    { content := none } [("port", JVal.num 104)] "" "hostB" true
    { config_data := [], version := 3, updated_by := "" } rfl
  exact h.2.2.2

/-- C10: `DatabaseBackend.is_locked` returns False in every state —
including while another writer holds the row lock — and
`FileBackend.is_locked` returns True exactly when the sentinel lock file
exists. -/
theorem is_locked_characterisation
    (st : DatabaseBackend.State) (db : DbState) (fs : FileState) :
    DatabaseBackend.is_locked st db = false ∧
    (FileBackend.is_locked fs = true ↔ fs.lockPresent = true) :=
  ⟨rfl, Iff.rfl⟩

/-- C9: a failure of the best-effort cache-mirror write never changes the
outcome of a `DatabaseBackend` operation: the result, the instance state
and (for `save`) the database state are identical whether `_write_cache`
succeeds or fails, for `save` and for `load` alike. -/
theorem cache_write_failure_is_harmless
    (st : DatabaseBackend.State) (db : DbState) (cache : CacheFile)
    (config_dict : Doc) (updated_by hostname : String) (dbOk : Bool) :
    (DatabaseBackend.save st db cache config_dict updated_by hostname true).result
      = (DatabaseBackend.save st db cache config_dict updated_by hostname false).result ∧
    (DatabaseBackend.save st db cache config_dict updated_by hostname true).st
      = (DatabaseBackend.save st db cache config_dict updated_by hostname false).st ∧
    (DatabaseBackend.save st db cache config_dict updated_by hostname true).db
      = (DatabaseBackend.save st db cache config_dict updated_by hostname false).db ∧
    (DatabaseBackend.load st db cache dbOk true).result
      = (DatabaseBackend.load st db cache dbOk false).result ∧
    (DatabaseBackend.load st db cache dbOk true).st
      = (DatabaseBackend.load st db cache dbOk false).st := by
  rcases hrow : db.row with _ | row <;>
    rcases hc : cache.content with _ | c <;>
    simp [DatabaseBackend.save, DatabaseBackend.load, hrow, hc] <;>
    split_ifs <;> simp_all

/-- C6 counterexample: a state in which a document exists (the singleton row
is present) and the store is not locked, yet `DatabaseBackend.load` returns
the unchanged-elision result `none` rather than the full document — the
store layer does implement version-based caching. -/
theorem load_unchanged_elision_counterexample :
    DatabaseBackend.is_locked { last_version := 1, connOpen := true }
      { row := some { config_data := [("port", JVal.num 104)], version := 1,
                      updated_by := "" }, lockHeld := false } = false ∧
    (DatabaseBackend.load { last_version := 1, connOpen := true }
      { row := some { config_data := [("port", JVal.num 104)], version := 1,
                      updated_by := "" }, lockHeld := false }
      { content := none } true true).result = .ok none :=
  ⟨rfl, rfl⟩

/-- C6 (amended): with a document present and the store not locked, the
store-layer read returns the full current document exactly when the stored
version is strictly newer than the backend's remembered version, and the
unchanged-elision result `none` exactly otherwise — for `FileBackend.load`
(mtime versus `_timestamp`) and `DatabaseBackend.load` (version counter
versus `_last_version`) alike. -/
theorem load_full_document_iff_newer
    (stF : FileBackend.State) (fs : FileState)
    (stD : DatabaseBackend.State) (db : DbState) (cache : CacheFile)
    (cacheWriteOk : Bool) (row : DbRow)
    (hLock : fs.lockPresent = false) (hPresent : fs.fsPresent = true)
    (hRow : db.row = some row) :
    ((FileBackend.load stF fs).2 = .ok (some fs.content) ↔ stF.timestamp < fs.mtime) ∧
    ((FileBackend.load stF fs).2 = .ok none ↔ fs.mtime ≤ stF.timestamp) ∧
    ((DatabaseBackend.load stD db cache true cacheWriteOk).result
        = .ok (some row.config_data) ↔ stD.last_version < row.version) ∧
    ((DatabaseBackend.load stD db cache true cacheWriteOk).result
        = .ok none ↔ row.version ≤ stD.last_version) := by
  simp only [FileBackend.load, FileBackend.is_locked, DatabaseBackend.load, hLock,
    hPresent, hRow, if_true, if_false, Bool.false_eq_true, not_true, ite_false]
  split_ifs <;> simp_all <;> omega

theorem load_full_document_iff_newer_witness :
    (FileBackend.load { timestamp := 0 }
      { fsPresent := true, content := [("port", JVal.num 104)], mtime := 5,
        lockPresent := false }).2 = .ok (some [("port", JVal.num 104)]) ∧
    (DatabaseBackend.load { last_version := 1, connOpen := true }
      { row := some { config_data := [("port", JVal.num 104)], version := 1,
                      updated_by := "" }, lockHeld := false }
      { content := none } true true).result = .ok none := by
  have h := load_full_document_iff_newer { timestamp := 0 }
    { fsPresent := true, content := [("port", JVal.num 104)], mtime := 5,
      lockPresent := false }
    { last_version := 1, connOpen := true }
    { row := some { config_data := [("port", JVal.num 104)], version := 1,
                    updated_by := "" }, lockHeld := false }
    { content := none } true
    { config_data := [("port", JVal.num 104)], version := 1, updated_by := "" }
    rfl rfl rfl
  exact ⟨h.1.mpr (by decide), (h.2.2.2).mpr (by decide)⟩

/-- C8: each one-time bootstrap/seed tool leaves the stored document and
version untouched when the singleton row already exists (`seed_config`
exits 0 as a no-op, `migrate_config_to_db` refuses with exit 1,
`bootstrap_shared_config` only refreshes the local cache), and a fresh
insert happens only when the row is absent — then with version 1. -/
theorem bootstrap_tools_refuse_overwrite
    (db : DbState) (cache : CacheFile) (default_config migrated bootDoc : Doc) :
    (∀ row, db.row = some row →
      (seed_config_main db default_config).1 = db ∧
      (seed_config_main db default_config).2 = 0 ∧
      (migrate_config_to_db_main db migrated).1 = db ∧
      (migrate_config_to_db_main db migrated).2 = 1 ∧
      (bootstrap_shared_config_main db cache (some bootDoc)).1 = db) ∧
    (db.row = none →
      (seed_config_main db default_config).1.row
        = some { config_data := default_config, version := 1,
                 updated_by := "seed_config.py" } ∧
      (migrate_config_to_db_main db migrated).1.row
        = some { config_data := migrated, version := 1,
                 updated_by := "migrate_config_to_db.py" } ∧
      (bootstrap_shared_config_main db cache (some bootDoc)).1.row
        = some { config_data := bootDoc, version := 1, updated_by := "" }) := by
  rcases hrow : db.row with _ | row <;>
    simp [seed_config_main, migrate_config_to_db_main, bootstrap_shared_config_main,
      dbConfigBackendWriteInsert, hrow]

theorem bootstrap_tools_refuse_overwrite_witness :
    (seed_config_main
      { row := some { config_data := [], version := 4, updated_by := "x" },
        lockHeld := false } [("port", JVal.num 104)]).1
      = { row := some { config_data := [], version := 4, updated_by := "x" },
          lockHeld := false } ∧
    (seed_config_main { row := none, lockHeld := false } [("port", JVal.num 104)]).1.row
      = some { config_data := [("port", JVal.num 104)], version := 1,
               updated_by := "seed_config.py" } := by
  have h1 := bootstrap_tools_refuse_overwrite
    { row := some { config_data := [], version := 4, updated_by := "x" }, lockHeld := false }
    { content := none } [("port", JVal.num 104)] [] []
  have h2 := bootstrap_tools_refuse_overwrite
    { row := none, lockHeld := false }
    { content := none } [("port", JVal.num 104)] [] []
  exact ⟨(h1.1 { config_data := [], version := 4, updated_by := "x" } rfl).1,
    (h2.2 rfl).1⟩

/-- C7: invoking the change-notification callback sets the session's
remembered version (`configuration_timestamp`) to 0, and the next
`read_config` then re-fetches and rebuilds the configuration from the
backend's result instead of taking the unchanged-return-cached branch, no
matter how the store's current version compares to the version the session
held before the callback. -/
theorem invalidate_forces_refetch
    (st : SessionState) (fs : FileState) (checkFoldersOk : Bool)
    (hLock : fs.lockPresent = false) (hPresent : fs.fsPresent = true) :
    (invalidate_config_timestamp st).configuration_timestamp = 0 ∧
    read_config (invalidate_config_timestamp st) fs checkFoldersOk
      = (if checkFoldersOk then
          ({ mercure := pyMerge mercure_defaults fs.content,
             configuration_timestamp := fs.mtime },
           .ok (pyMerge mercure_defaults fs.content))
         else
          ({ mercure := pyMerge mercure_defaults fs.content,
             configuration_timestamp := 0 },
           .error .foldersMissing)) := by
  refine ⟨rfl, ?_⟩
  simp [read_config, fileConfigRead, invalidate_config_timestamp, hLock, hPresent]

theorem invalidate_forces_refetch_witness :
    read_config
      (invalidate_config_timestamp { mercure := [], configuration_timestamp := 9 })
      { fsPresent := true, content := [("port", JVal.num 104)], mtime := 3,
        lockPresent := false } true
      = ({ mercure := pyMerge mercure_defaults [("port", JVal.num 104)],
           configuration_timestamp := 3 },
         .ok (pyMerge mercure_defaults [("port", JVal.num 104)])) := by
  have h := invalidate_forces_refetch { mercure := [], configuration_timestamp := 9 }
    { fsPresent := true, content := [("port", JVal.num 104)], mtime := 3,
      lockPresent := false } true rfl rfl
  simpa using h.2

/-- C5: a successful `save_config` immediately followed by `read_config` on
the same session (no intervening external write) returns exactly the
document that was saved: the save leaves the session holding the written
document with the file's new modification time as version, and the
following read takes the version-unchanged branch and returns that held
document. -/
theorem save_then_read_returns_saved_document
    (st : SessionState) (fs : FileState) (newMtime : Nat) (checkFoldersOk : Bool)
    (hLock : fs.lockPresent = false) (hM : 0 < newMtime) :
    save_config st fs newMtime true true
      = ({ mercure := st.mercure, configuration_timestamp := newMtime },
         { fsPresent := true, content := st.mercure, mtime := newMtime,
           lockPresent := false }, .ok ()) ∧
    read_config { mercure := st.mercure, configuration_timestamp := newMtime }
        { fsPresent := true, content := st.mercure, mtime := newMtime,
          lockPresent := false } checkFoldersOk
      = ({ mercure := st.mercure, configuration_timestamp := newMtime }, .ok st.mercure) := by
  constructor
  · simp [save_config, fileConfigWrite, hLock]
  · simp [read_config, fileConfigRead, hM]

theorem save_then_read_returns_saved_document_witness :
    read_config
      { mercure := [("port", JVal.num 104)], configuration_timestamp := 7 }
      { fsPresent := true, content := [("port", JVal.num 104)], mtime := 7,
        lockPresent := false } true
      = ({ mercure := [("port", JVal.num 104)], configuration_timestamp := 7 },
         .ok [("port", JVal.num 104)]) := by
  have h := save_then_read_returns_saved_document
    { mercure := [("port", JVal.num 104)], configuration_timestamp := 0 }
    { fsPresent := true, content := [], mtime := 2, lockPresent := false }
    7 true rfl (by decide)
  exact h.2

/-- C1 counterexample: with the file backend, a `save` that observes a
backdated modification time (a clock adjustment) lowers the remembered
`_timestamp` from 5 to 3, and a subsequent `load` then returns a document
associated with version 4, lower than the version 5 the caller had already
observed — refuting the unconditional claim. -/
theorem version_time_travel_counterexample :
    (fileExec FileBackend.init
      [.load { fsPresent := true, content := [], mtime := 5, lockPresent := false }]).timestamp
      = 5 ∧
    (fileExec FileBackend.init
      [.load { fsPresent := true, content := [], mtime := 5, lockPresent := false },
       .save { fsPresent := true, content := [], mtime := 5, lockPresent := false }
         [("port", JVal.num 104)] 3 true true]).timestamp = 3 ∧
    (FileBackend.load
      (fileExec FileBackend.init
        [.load { fsPresent := true, content := [], mtime := 5, lockPresent := false },
         .save { fsPresent := true, content := [], mtime := 5, lockPresent := false }
           [("port", JVal.num 104)] 3 true true])
      { fsPresent := true, content := [("k", JVal.null)], mtime := 4,
        lockPresent := false }).2
      = .ok (some [("k", JVal.null)]) :=
  ⟨rfl, rfl, rfl⟩

/-- C1 (amended): the remembered version is non-decreasing and loads never
travel back in time, provided — for `FileBackend` — the modification times
the file system reports across the calls are non-decreasing and `stat`
succeeds on saves; for `DatabaseBackend` this holds unconditionally, under
the invariant `dbInv` relating the instance to the shared row (true of a
fresh instance, preserved by every event). In detail: (1) `_timestamp` is
non-decreasing along any such trace of file-backend calls; (2) a
changed-returning `FileBackend.load` returns the document at a version
strictly above the remembered `_timestamp` and then remembers exactly that
version; (3) `_last_version` is non-decreasing along any trace of loads,
saves and external writes; (4) a changed-returning database-path
`DatabaseBackend.load` returns the row's document at a version strictly
above `_last_version` and then remembers exactly that version; (5) the
cache-mirror fallback returns a document only while no version has ever
been observed (`_last_version = 0`). -/
theorem remembered_version_non_decreasing
    (stF : FileBackend.State) (opsF : List FileOp)
    (s : DbSys) (opsD : List DbOp)
    (stL : FileBackend.State) (fsL : FileState)
    (stD : DatabaseBackend.State) (db : DbState) (cache : CacheFile) (cok : Bool)
    (hSorted : opsF.Pairwise (fun a b => a.mtimeOf ≤ b.mtimeOf))
    (hOps : ∀ op ∈ opsF, op.statOkOf = true ∧ stF.timestamp ≤ op.mtimeOf)
    (hInv : dbInv s) :
    stF.timestamp ≤ (fileExec stF opsF).timestamp ∧
    (∀ d, (FileBackend.load stL fsL).2 = .ok (some d) →
      stL.timestamp < fsL.mtime ∧
      (FileBackend.load stL fsL).1.timestamp = fsL.mtime ∧ d = fsL.content) ∧
    s.st.last_version ≤ (dbExec s opsD).st.last_version ∧
    (∀ row d, db.row = some row →
      (DatabaseBackend.load stD db cache true cok).result = .ok (some d) →
      stD.last_version < row.version ∧
      (DatabaseBackend.load stD db cache true cok).st.last_version = row.version ∧
      d = row.config_data) ∧
    (∀ d, (DatabaseBackend.load stD db cache false cok).result = .ok (some d) →
      stD.last_version = 0) := by
  refine ⟨fileExec_mono opsF stF hSorted hOps, ?_, dbExec_mono opsD s hInv, ?_, ?_⟩
  · intro d hres
    simp only [FileBackend.load] at hres ⊢
    split_ifs at hres ⊢ with h1 h2 h3 <;> simp_all <;> omega
  · intro row d hrow h
    simp only [DatabaseBackend.load, hrow] at h ⊢
    split_ifs at h ⊢ <;> simp_all <;> omega
  · intro d h
    rcases hc : cache.content with _ | c <;>
      simp only [DatabaseBackend.load, hc] at h <;>
      split_ifs at h <;> simp_all

theorem remembered_version_non_decreasing_witness :
    FileBackend.init.timestamp ≤
      (fileExec FileBackend.init
        [.load { fsPresent := true, content := [], mtime := 2, lockPresent := false },
         .save { fsPresent := true, content := [], mtime := 2, lockPresent := false }
           [("port", JVal.num 104)] 4 true true]).timestamp ∧
    (DbSys.mk DatabaseBackend.init
        { row := some { config_data := [], version := 1, updated_by := "" },
          lockHeld := false }
        { content := none }).st.last_version ≤
      (dbExec
        (DbSys.mk DatabaseBackend.init
          { row := some { config_data := [], version := 1, updated_by := "" },
            lockHeld := false }
          { content := none })
        [.save [("port", JVal.num 104)] "" "hostA" true,
         .load true true]).st.last_version := by
  have h := remembered_version_non_decreasing
    FileBackend.init
    [.load { fsPresent := true, content := [], mtime := 2, lockPresent := false },
     .save { fsPresent := true, content := [], mtime := 2, lockPresent := false }
       [("port", JVal.num 104)] 4 true true]
    (DbSys.mk DatabaseBackend.init
      { row := some { config_data := [], version := 1, updated_by := "" },
        lockHeld := false }
      { content := none })
    [.save [("port", JVal.num 104)] "" "hostA" true, .load true true]
    FileBackend.init
    { fsPresent := true, content := [], mtime := 2, lockPresent := false }
    DatabaseBackend.init
    { row := some { config_data := [], version := 1, updated_by := "" }, lockHeld := false }
    { content := none } true
    (by simp [List.pairwise_cons, FileOp.mtimeOf])
    (by decide)
    (by simp [dbInv]; decide)
  exact ⟨h.1, h.2.2.1⟩
